import Mathlib

/-!
Verification of the globe-webpage projection/overlay logic.

The source consists of two near-duplicate React components:
* `HomepageAnimation` (globe with an automatic card sequence), and
* `GlobeWithPins` together with the `World` renderer wrapper.

We embed the numeric and state-machine content of both shallowly:
real-number arithmetic for the projection and rotation updates, an
explicit JavaScript-number type for the non-finite-target analysis,
and a small-step machine for the timer-driven card sequence.
-/

open Filter

noncomputable section

namespace Globe

/-- Result of projecting a latitude/longitude to screen coordinates:
`x`, `y` in pixels and the front-hemisphere visibility test. -/
structure Proj where
  x : ℝ
  y : ℝ
  visible : Prop

/-- Sentinel returned by both `latLngToScreen` functions when the globe
state or the wrapper element is not yet initialized. -/
def sentinelProj : Proj := ⟨-9999, -9999, False⟩

/-- `HomepageAnimation.latLngToScreen`, ready case: spherical-to-Cartesian
conversion, rotation by `phi` about the vertical axis, scale by
`R * 0.95` and translation to the canvas center, with depth test
`zr > 0.02`.  `w`, `h` are the square canvas dimensions. -/
def hpProject (lat lng phi w h : ℝ) : Proj :=
  let lambda := lng * Real.pi / 180
  let phiLat := lat * Real.pi / 180
  let x := Real.cos phiLat * Real.cos lambda
  let y := Real.sin phiLat
  let z := Real.cos phiLat * Real.sin lambda
  let xr := x * Real.cos phi + z * Real.sin phi
  let zr := -x * Real.sin phi + z * Real.cos phi
  let R := min w h / 2
  let scale := R * 0.95
  ⟨w / 2 + xr * scale, h / 2 - y * scale, zr > 0.02⟩

/-- `HomepageAnimation.latLngToScreen` with its not-ready guard: `globe`
models `globeRef.current` (holding the current `phi`), `wrapper` models
`wrapperRef.current`; if either is `null` the sentinel is returned. -/
def hpLatLngToScreen (globe : Option ℝ) (wrapper : Option Unit)
    (w h lat lng : ℝ) : Proj :=
  match globe, wrapper with
  | some phi, some _ => hpProject lat lng phi w h
  | _, _ => sentinelProj

/-- DOM geometry read by `GlobeWithPins.latLngToScreen`: the wrapper's
`offsetLeft`, `getBoundingClientRect().left/top`, `window.scrollY`
and `offsetWidth`. -/
structure DomEnv where
  offsetLeft : ℝ
  rectLeft : ℝ
  rectTop : ℝ
  scrollY : ℝ
  offsetWidth : ℝ

/-- `GlobeWithPins.latLngToScreen`, ready case: same spherical math,
then conversion to wrapper-local coordinates through the DOM offsets. -/
def gwpProject (env : DomEnv) (phi lat lng : ℝ) : Proj :=
  let R := env.offsetWidth / 2
  let lambda := lng * Real.pi / 180
  let phiLat := lat * Real.pi / 180
  let x := Real.cos phiLat * Real.cos lambda
  let y := Real.sin phiLat
  let z := Real.cos phiLat * Real.sin lambda
  let xr := x * Real.cos phi + z * Real.sin phi
  let zr := -x * Real.sin phi + z * Real.cos phi
  let scale := R * 0.95
  let sx := env.offsetLeft + R + xr * scale - env.rectLeft
  let sy := env.rectTop + R - y * scale - env.scrollY
  ⟨sx - env.rectLeft, sy - env.rectTop, zr > 0.02⟩

/-- `GlobeWithPins.latLngToScreen` with its not-ready guard on
`globeStateRef.current` and `wrapperRef.current`. -/
def gwpLatLngToScreen (globe : Option ℝ) (wrapper : Option DomEnv)
    (lat lng : ℝ) : Proj :=
  match globe, wrapper with
  | some phi, some env => gwpProject env phi lat lng
  | _, _ => sentinelProj

/-- `HomepageAnimation.lonToPhi`: target rotation for a longitude,
`-(lon * PI / 180)`. -/
def lonToPhi (lon : ℝ) : ℝ := -(lon * Real.pi / 180)

/-- `HomepageAnimation`'s `onRender` update of `phi`: interpolate toward
the target when `targetPhi.current` is a number, otherwise slow idle
rotation. -/
def hpOnRenderPhi (target : Option ℝ) (phi : ℝ) : ℝ :=
  match target with
  | some t => phi + (t - phi) * 0.06
  | none => phi + 0.0006

/-- Rotation state shared between `GlobeWithPins` and `World` through
`globeStateRef`. -/
structure GlobeSharedState where
  phi : ℝ
  targetPhi : Option ℝ

/-- `GlobeWithPins.focusOnPin`: store `-(lng * PI / 180)` as the target
on the shared state (expecting `World` to interpolate toward it). -/
def focusOnPin (lng : ℝ) (s : GlobeSharedState) : GlobeSharedState :=
  { s with targetPhi := some (-(lng * Real.pi / 180)) }

/-- `World`'s `onRender`: unconditionally advance `phi` by
`globeConfig.autoRotateSpeed ?? 0.0008`; the shared target is never
read. -/
def worldOnRender (autoRotateSpeed : Option ℝ) (s : GlobeSharedState) :
    GlobeSharedState :=
  { s with phi := s.phi + autoRotateSpeed.getD 0.0008 }

/-- A point of interest of `HomepageAnimation` (`players` array entry):
`mapCoord` is `[lat, lng]`. -/
structure Player where
  id : ℕ
  name : String
  team : String
  lat : ℝ
  lng : ℝ

/-- The `players` array of `HomepageAnimation`. -/
def players : List Player :=
  [⟨1, "Faouzi Ghoulam", "Napoli", 36, 3⟩,
   ⟨2, "Kalidou Koulibaly", "Al Hilal", 14, -17⟩,
   ⟨3, "Killian Hayes", "Detroit Pistons", 47, -2⟩]

/-- Longitude of the player at position `k` (0 for out-of-range `k`,
mirroring an undefined access only where it cannot occur). -/
def playerLng (k : ℕ) : ℝ := ((players.get? k).map Player.lng).getD 0

/-- `SHOW_MS` constant: card display duration in milliseconds. -/
def SHOW_MS : ℕ := 1400

/-- `FADE_MS` constant: gap duration in milliseconds. -/
def FADE_MS : ℕ := 300

/-- `LOOPS` constant: number of automatic loops before stopping. -/
def LOOPS : ℕ := 1

/-- Control position of the `run()` loop between timer awaits. -/
inductive SeqPhase where
  | loopHead
  | showing
  | fading
  | stopped
deriving DecidableEq

/-- Combined state of the card sequence: the `run()` closure's locals
(`idx`, `localLoop`, and its captured copy of `running`), the React
state (`activeIndex`, `running`, `loopsDone`) and the shared
`targetPhi` ref.  `closureRunning` is the value of `running` captured
when the effect mounted: the effect has an empty dependency array, so
`setRunning` never updates it. -/
structure SeqState where
  phase : SeqPhase
  idx : ℕ
  localLoop : ℕ
  loopsDone : ℕ
  activeIndex : Option ℕ
  reactRunning : Bool
  closureRunning : Bool
  target : Option ℝ

/-- Initial state at mount: loop about to run, index 0, autoplay on. -/
def seqInit : SeqState :=
  ⟨.loopHead, 0, 0, 0, none, true, true, none⟩

/-- One step of the `run()` loop, driven by the pending timer / control
flow: at the loop head, the `while` condition reads the closure's
captured `running`; `showing` ends when the `SHOW_MS` timer fires
(`setActiveIndex(null)`); `fading` ends when the `FADE_MS` timer fires,
advancing `idx = (idx + 1) % players.length` and stopping once
`localLoop >= LOOPS` after a wrap. -/
def seqStep (s : SeqState) : SeqState :=
  match s.phase with
  | .loopHead =>
      if s.closureRunning then
        { s with target := some (lonToPhi (playerLng s.idx)),
                 activeIndex := some s.idx, phase := .showing }
      else { s with phase := .stopped }
  | .showing => { s with activeIndex := none, phase := .fading }
  | .fading =>
      let idx1 := (s.idx + 1) % players.length
      if idx1 = 0 then
        let ll := s.localLoop + 1
        if LOOPS ≤ ll then
          { s with idx := idx1, localLoop := ll, loopsDone := ll,
                   reactRunning := false, target := none, phase := .stopped }
        else
          { s with idx := idx1, localLoop := ll, loopsDone := ll,
                   phase := .loopHead }
      else { s with idx := idx1, phase := .loopHead }
  | .stopped => s

/-- A manual click on pin `k` (`onClick` of a pin button): set the active
index, seek the camera to the pin's longitude, and set the React
`running` state to false.  The closure's captured copy is untouched. -/
def clickPin (k : ℕ) (s : SeqState) : SeqState :=
  { s with activeIndex := some k,
           target := some (lonToPhi (playerLng k)),
           reactRunning := false }

/-- JavaScript double at the granularity the analysis needs: a finite
real, NaN, or a signed infinity (`inf true` is positive infinity).
All three satisfy the JavaScript test `typeof t === "number"`. -/
inductive JSNum where
  | fin : ℝ → JSNum
  | nan : JSNum
  | inf : Bool → JSNum
deriving DecidableEq

namespace JSNum

/-- IEEE-754 subtraction restricted to the cases `JSNum` represents. -/
def sub : JSNum → JSNum → JSNum
  | nan, _ => nan
  | _, nan => nan
  | fin a, fin b => fin (a - b)
  | inf s, fin _ => inf s
  | fin _, inf s => inf (!s)
  | inf s, inf t => if s = t then nan else inf s

/-- IEEE-754 multiplication restricted to the cases `JSNum` represents. -/
def mul : JSNum → JSNum → JSNum
  | nan, _ => nan
  | _, nan => nan
  | fin a, fin b => fin (a * b)
  | inf s, fin c => if c = 0 then nan else if 0 < c then inf s else inf (!s)
  | fin c, inf s => if c = 0 then nan else if 0 < c then inf s else inf (!s)
  | inf s, inf t => inf (s == t)

/-- IEEE-754 addition restricted to the cases `JSNum` represents. -/
def add : JSNum → JSNum → JSNum
  | nan, _ => nan
  | _, nan => nan
  | fin a, fin b => fin (a + b)
  | inf s, fin _ => inf s
  | fin _, inf s => inf s
  | inf s, inf t => if s = t then inf s else nan

/-- A `JSNum` is finite when it is a `fin` value. -/
def isFinite : JSNum → Prop
  | fin _ => True
  | _ => False

end JSNum

/-- `HomepageAnimation`'s `onRender` over JavaScript numbers: the guard is
exactly `typeof t === "number"` — any `JSNum` (NaN and infinities
included) passes it; only `null` (`none`) takes the idle branch. -/
def hpOnRenderJS (target : Option JSNum) (phi : JSNum) : JSNum :=
  match target with
  | some t => JSNum.add phi (JSNum.mul (JSNum.sub t phi) (JSNum.fin 0.06))
  | none => JSNum.add phi (JSNum.fin 0.0006)

/-- One frame of the interpolation step the `onRender` callback performs
while a target is set, generalized over the strength as the spec's
RotationController describes it: `phi + (T - phi) * s`. -/
def seekStep (T s phi : ℝ) : ℝ := phi + (T - phi) * s

/-- `n` frames of the interpolation step starting from `phi0`. -/
def seekIter (T s phi0 : ℝ) : ℕ → ℝ
  | 0 => phi0
  | n + 1 => seekStep T s (seekIter T s phi0 n)

/-- The sequence machine after `n` timer-driven steps from mount. -/
def seqRun : ℕ → SeqState
  | 0 => seqInit
  | n + 1 => seqStep (seqRun n)

/-- `HomepageAnimation` active-card anchor: horizontal clamp
`max(60, min(w - 60, x))` unconditionally; top is
`max(36, adjustedY - 72)` when the pin is visible and the fixed `36`
otherwise. `adjY` is the pin's y adjusted for the half-height wrapper. -/
def hpCardAnchor (w x adjY : ℝ) (vis : Bool) : ℝ × ℝ :=
  (max 60 (min (w - 60) x),
   if vis then max 36 (adjY - 72) else 36)

/-- `GlobeWithPins` popup anchor: when the pin is visible, the clamped
`max(48, min(w - 48, x))` and `max(24, y - 110)`; otherwise the
top-center fallback `(w / 2, 28)`. -/
def gwpCardAnchor (w x y : ℝ) (vis : Bool) : ℝ × ℝ :=
  (if vis then max 48 (min (w - 48) x) else w / 2,
   if vis then max 24 (y - 110) else 28)

end Globe

end

open Globe

/-- Basic sanity check of the projection at a trivial input: the point at
lat 0, lng 0 under rotation 0 lands at the right edge of the inset disc. -/
theorem hpProject_zero_x : (Globe.hpProject 0 0 0 920 920).x = 897 := by
  simp [Globe.hpProject]
  norm_num

/-- C1: a pin click while card 1 is showing does set the active index and
the React `running` flag, but the `run()` loop's `while` condition reads
the stale closure copy of `running`, so the pending timers keep firing:
three steps later the machine has automatically advanced the active
index to 2.  This refutes "no further automatic advance ever occurs"
and contradicts the code's own comment "stop automatic sequence when
user interacts". -/
theorem C1_stale_closure_advances :
    (seqRun 4).activeIndex = some 1 ∧
    (clickPin 0 (seqRun 4)).activeIndex = some 0 ∧
    (clickPin 0 (seqRun 4)).reactRunning = false ∧
    (seqRun 3 |> seqStep |> clickPin 0 |> seqStep |> seqStep |>
      seqStep).activeIndex = some 2 ∧
    (seqRun 3 |> seqStep |> clickPin 0 |> seqStep |> seqStep |>
      seqStep).reactRunning = false :=
  ⟨rfl, rfl, rfl, rfl, rfl⟩

/-- C3: after the automatic sequence wraps past the last point with the
loop limit reached, the machine is `stopped` with the target cleared —
but the next frame does not hold `phi`: with no target, `onRender`
advances `phi` by the idle increment, so `phi = 1` becomes `1.0006`. -/
theorem C3_counterexample :
    (seqRun 9).phase = SeqPhase.stopped ∧
    (seqRun 9).target = none ∧
    hpOnRenderPhi (seqRun 9).target 1 ≠ 1 := by
  refine ⟨rfl, rfl, ?_⟩
  have h : (seqRun 9).target = none := rfl
  rw [h]
  show (1 : ℝ) + 0.0006 ≠ 1
  norm_num

/-- C3 (amended): when the sequence wraps past the last point and the
loop limit is reached it transitions to `stopped`, clears the target
and sets `running` false; every subsequent frame then resumes the slow
idle rotation, adding `0.0006` to `phi` instead of holding it. -/
theorem C3_amended_idle_resumes (phi : ℝ) :
    (seqRun 9).phase = SeqPhase.stopped ∧
    (seqRun 9).reactRunning = false ∧
    (seqRun 9).target = none ∧
    hpOnRenderPhi (seqRun 9).target phi = phi + 0.0006 := by
  refine ⟨rfl, rfl, rfl, ?_⟩
  have h : (seqRun 9).target = none := rfl
  rw [h]
  rfl

/-- C5: the guard before the interpolation is only
`typeof t === "number"`, which NaN satisfies; a NaN target therefore
propagates into `phi` in a single frame — `phi` does not remain
finite, refuting the claim that a non-finite target is rejected. -/
theorem C5_counterexample :
    ¬ (hpOnRenderJS (some JSNum.nan) (JSNum.fin 0)).isFinite := by
  simp [hpOnRenderJS, JSNum.sub, JSNum.mul, JSNum.add, JSNum.isFinite]

/-- C5 (amended): NaN and both infinities pass the `typeof` guard and
propagate into `phi` in one frame: a NaN target makes `phi` NaN and an
infinite target makes `phi` the same infinity. -/
theorem C5_amended_nonfinite_propagates (p : ℝ) :
    hpOnRenderJS (some JSNum.nan) (JSNum.fin p) = JSNum.nan ∧
    hpOnRenderJS (some (JSNum.inf true)) (JSNum.fin p) = JSNum.inf true ∧
    hpOnRenderJS (some (JSNum.inf false)) (JSNum.fin p) = JSNum.inf false := by
  refine ⟨rfl, ?_, ?_⟩ <;>
    norm_num [hpOnRenderJS, JSNum.sub, JSNum.mul, JSNum.add]

/-- C4: `focusOnPin` stores `-(lng * PI / 180)` as the shared target, but
`World`'s `onRender` never reads it: with `autoRotateSpeed = 0.0012`
(the value `GlobeWithPins` configures) the frame after clicking the
New Delhi pin (lng 77.209) from `phi = 0` yields `phi = 0.0012`, not
the claimed `0 + (target - 0) * 0.06`. -/
theorem C4_world_ignores_target :
    (focusOnPin 77.209 ⟨0, none⟩).targetPhi =
      some (-(77.209 * Real.pi / 180)) ∧
    (worldOnRender (some 0.0012) (focusOnPin 77.209 ⟨0, none⟩)).phi =
      0.0012 ∧
    (0.0012 : ℝ) ≠ 0 + (-(77.209 * Real.pi / 180) - 0) * 0.06 := by
  refine ⟨rfl, by simp [worldOnRender, focusOnPin], ?_⟩
  intro h
  nlinarith [Real.pi_pos]

/-- C9: whenever the globe state ref or the wrapper ref is still null,
both `latLngToScreen` implementations return the off-screen sentinel
`{x: -9999, y: -9999, visible: false}` for every input. -/
theorem C9_notReady_sentinel (globe : Option ℝ) (wrapper : Option Unit)
    (genv : Option ℝ) (denv : Option DomEnv) (w h lat lng lat2 lng2 : ℝ)
    (hhp : globe = none ∨ wrapper = none)
    (hgwp : genv = none ∨ denv = none) :
    hpLatLngToScreen globe wrapper w h lat lng = sentinelProj ∧
    gwpLatLngToScreen genv denv lat2 lng2 = sentinelProj := by
  constructor
  · rcases hhp with h | h <;> subst h
    · cases wrapper <;> rfl
    · cases globe <;> rfl
  · rcases hgwp with h | h <;> subst h
    · cases denv <;> rfl
    · cases genv <;> rfl

/-- Unfolding of the front-hemisphere test of `hpProject`. -/
theorem hpProject_visible_iff (lat lng phi w h : ℝ) :
    (hpProject lat lng phi w h).visible ↔
      0.02 < -(Real.cos (lat * Real.pi / 180) * Real.cos (lng * Real.pi / 180)) *
          Real.sin phi +
        Real.cos (lat * Real.pi / 180) * Real.sin (lng * Real.pi / 180) *
          Real.cos phi :=
  Iff.rfl

/-- C2: the point at lat 0, lng `-phi` degrees is not always visible —
at `phi = 0` it sits on the horizon with rotated depth `zr = 0`, which
fails the test `zr > 0.02`. -/
theorem C2_counterexample :
    ¬ (hpProject 0 (-(0 : ℝ) * 180 / Real.pi) 0 920 920).visible := by
  rw [hpProject_visible_iff]
  norm_num

/-- C2 (amended): the rotation-facing center under the code's rotation
convention is at lng `= (phi + pi/2) * 180 / pi` degrees (not `-phi`
degrees): that point always has rotated depth `zr = 1 > 0.02`, hence is
always visible. -/
theorem C2_amended_center_visible (phi w h : ℝ) :
    (hpProject 0 ((phi + Real.pi / 2) * 180 / Real.pi) phi w h).visible := by
  have hl : ((phi + Real.pi / 2) * 180 / Real.pi) * Real.pi / 180
      = phi + Real.pi / 2 := by
    field_simp
    ring
  have key : Real.sin (phi + Real.pi / 2) * Real.cos phi -
      Real.cos (phi + Real.pi / 2) * Real.sin phi = 1 := by
    have hs := Real.sin_sub (phi + Real.pi / 2) phi
    rw [add_sub_cancel_left, Real.sin_pi_div_two] at hs
    linarith
  rw [hpProject_visible_iff, hl]
  simp only [zero_mul, zero_div, Real.cos_zero, one_mul]
  nlinarith [key]

/-- Gap to the target after each interpolation frame, in closed form. -/
theorem seekIter_gap (T s phi0 : ℝ) (n : ℕ) :
    T - seekIter T s phi0 n = (1 - s) ^ n * (T - phi0) := by
  induction n with
  | zero => simp [seekIter]
  | succ n ih =>
      have h : T - seekIter T s phi0 (n + 1)
          = (1 - s) * (T - seekIter T s phi0 n) := by
        simp [seekIter, seekStep]; ring
      rw [h, ih, pow_succ]; ring

/-- C6: for `0 < s < 1` the interpolation `phi + (T - phi) * s` shrinks
the distance to the target by the factor `1 - s` every frame, converges
to `T`, and the sign of `T - phi` never flips (no overshoot). -/
theorem C6_seek_converges (phi0 T s : ℝ) (h0 : 0 < s) (h1 : s < 1) :
    (∀ n, |T - seekIter T s phi0 (n + 1)|
       = (1 - s) * |T - seekIter T s phi0 n|) ∧
    Filter.Tendsto (seekIter T s phi0) Filter.atTop (nhds T) ∧
    ∀ n, 0 ≤ (T - seekIter T s phi0 n) * (T - phi0) := by
  have hs : (0 : ℝ) ≤ 1 - s := by linarith
  refine ⟨?_, ?_, ?_⟩
  · intro n
    have h : T - seekIter T s phi0 (n + 1)
        = (1 - s) * (T - seekIter T s phi0 n) := by
      simp [seekIter, seekStep]; ring
    rw [h, abs_mul, abs_of_nonneg hs]
  · have hpow : Filter.Tendsto (fun n : ℕ => (1 - s) ^ n)
        Filter.atTop (nhds 0) :=
      tendsto_pow_atTop_nhds_zero_of_lt_one hs (by linarith)
    have hmul := hpow.mul_const (T - phi0)
    have hsub := hmul.const_sub T
    simp only [zero_mul, sub_zero] at hsub
    refine hsub.congr ?_
    intro n
    have := seekIter_gap T s phi0 n
    linarith
  · intro n
    rw [seekIter_gap, mul_assoc]
    exact mul_nonneg (pow_nonneg hs n) (mul_self_nonneg _)

/-- C6 witness: interpolation from 0 toward 1 with strength 1/2. -/
theorem C6_seek_converges_witness :
    ((0 : ℝ) < 1 / 2 ∧ (1 / 2 : ℝ) < 1) ∧
    ((∀ n, |(1 : ℝ) - seekIter 1 (1 / 2) 0 (n + 1)|
        = (1 - 1 / 2) * |1 - seekIter 1 (1 / 2) 0 n|) ∧
     Filter.Tendsto (seekIter 1 (1 / 2) 0) Filter.atTop (nhds 1) ∧
     ∀ n, 0 ≤ ((1 : ℝ) - seekIter 1 (1 / 2) 0 n) * (1 - 0)) :=
  ⟨⟨by norm_num, by norm_num⟩,
   C6_seek_converges 0 1 (1 / 2) (by norm_num) (by norm_num)⟩

/-- Unfolding of the x coordinate produced by `hpProject`. -/
theorem hpProject_x_eq (lat lng phi w h : ℝ) :
    (hpProject lat lng phi w h).x = w / 2 +
      (Real.cos (lat * Real.pi / 180) * Real.cos (lng * Real.pi / 180) *
          Real.cos phi +
        Real.cos (lat * Real.pi / 180) * Real.sin (lng * Real.pi / 180) *
          Real.sin phi) * (min w h / 2 * 0.95) :=
  rfl

/-- Unfolding of the y coordinate produced by `hpProject`. -/
theorem hpProject_y_eq (lat lng phi w h : ℝ) :
    (hpProject lat lng phi w h).y = h / 2 -
      Real.sin (lat * Real.pi / 180) * (min w h / 2 * 0.95) :=
  rfl

/-- Unfolding of the x coordinate produced by `gwpProject`. -/
theorem gwpProject_x_eq (env : DomEnv) (phi lat lng : ℝ) :
    (gwpProject env phi lat lng).x = env.offsetLeft + env.offsetWidth / 2 +
      (Real.cos (lat * Real.pi / 180) * Real.cos (lng * Real.pi / 180) *
          Real.cos phi +
        Real.cos (lat * Real.pi / 180) * Real.sin (lng * Real.pi / 180) *
          Real.sin phi) * (env.offsetWidth / 2 * 0.95) -
      env.rectLeft - env.rectLeft :=
  rfl

/-- Unfolding of the y coordinate produced by `gwpProject`. -/
theorem gwpProject_y_eq (env : DomEnv) (phi lat lng : ℝ) :
    (gwpProject env phi lat lng).y = env.rectTop + env.offsetWidth / 2 -
      Real.sin (lat * Real.pi / 180) * (env.offsetWidth / 2 * 0.95) -
      env.scrollY - env.rectTop :=
  rfl

/-- The rotated horizontal component is the cosine of a difference, so
its magnitude never exceeds one. -/
theorem abs_xr_le_one (a b c : ℝ) :
    |Real.cos a * Real.cos b * Real.cos c +
      Real.cos a * Real.sin b * Real.sin c| ≤ 1 := by
  have h : Real.cos a * Real.cos b * Real.cos c +
      Real.cos a * Real.sin b * Real.sin c
      = Real.cos a * Real.cos (b - c) := by
    rw [Real.cos_sub]; ring
  rw [h, abs_mul]
  exact mul_le_one₀ (Real.abs_cos_le_one a) (abs_nonneg _)
    (Real.abs_cos_le_one _)

/-- A unit-magnitude factor scaled by `R * 0.95` stays within `0.95 * R`. -/
theorem abs_scaled_le (u R : ℝ) (hu : |u| ≤ 1) (hR : 0 ≤ R) :
    |u * (R * 0.95)| ≤ 0.95 * R := by
  rw [abs_mul, abs_of_nonneg (by nlinarith : (0 : ℝ) ≤ R * 0.95)]
  nlinarith [abs_nonneg u]

/-- Distance of the `hpProject` x output from the canvas center. -/
theorem hp_x_dist (lat lng phi w h : ℝ) (hR : 0 ≤ min w h) :
    |(hpProject lat lng phi w h).x - w / 2| ≤ 0.95 * (min w h / 2) := by
  rw [hpProject_x_eq, add_sub_cancel_left]
  exact abs_scaled_le _ _ (abs_xr_le_one _ _ _) (by linarith)

/-- Distance of the `hpProject` y output from the canvas center. -/
theorem hp_y_dist (lat lng phi w h : ℝ) (hR : 0 ≤ min w h) :
    |(hpProject lat lng phi w h).y - h / 2| ≤ 0.95 * (min w h / 2) := by
  rw [hpProject_y_eq]
  have he : h / 2 - Real.sin (lat * Real.pi / 180) * (min w h / 2 * 0.95) -
      h / 2 = -Real.sin (lat * Real.pi / 180) * (min w h / 2 * 0.95) := by
    ring
  rw [he]
  refine abs_scaled_le _ _ ?_ (by linarith)
  rw [abs_neg]
  exact Real.abs_sin_le_one _

/-- Distance of the `gwpProject` x output from the point the code
centers on (`offsetLeft + R - 2 * rectLeft`). -/
theorem gwp_x_dist (env : DomEnv) (phi lat lng : ℝ)
    (hR : 0 ≤ env.offsetWidth) :
    |(gwpProject env phi lat lng).x -
      (env.offsetLeft + env.offsetWidth / 2 - env.rectLeft -
        env.rectLeft)| ≤ 0.95 * (env.offsetWidth / 2) := by
  rw [gwpProject_x_eq]
  have he : env.offsetLeft + env.offsetWidth / 2 +
      (Real.cos (lat * Real.pi / 180) * Real.cos (lng * Real.pi / 180) *
          Real.cos phi +
        Real.cos (lat * Real.pi / 180) * Real.sin (lng * Real.pi / 180) *
          Real.sin phi) * (env.offsetWidth / 2 * 0.95) -
      env.rectLeft - env.rectLeft -
      (env.offsetLeft + env.offsetWidth / 2 - env.rectLeft - env.rectLeft)
      = (Real.cos (lat * Real.pi / 180) * Real.cos (lng * Real.pi / 180) *
          Real.cos phi +
        Real.cos (lat * Real.pi / 180) * Real.sin (lng * Real.pi / 180) *
          Real.sin phi) * (env.offsetWidth / 2 * 0.95) := by
    ring
  rw [he]
  exact abs_scaled_le _ _ (abs_xr_le_one _ _ _) (by linarith)

/-- Distance of the `gwpProject` y output from the point the code
centers on (`R - scrollY`; the `rectTop` terms cancel). -/
theorem gwp_y_dist (env : DomEnv) (phi lat lng : ℝ)
    (hR : 0 ≤ env.offsetWidth) :
    |(gwpProject env phi lat lng).y -
      (env.offsetWidth / 2 - env.scrollY)| ≤
      0.95 * (env.offsetWidth / 2) := by
  rw [gwpProject_y_eq]
  have he : env.rectTop + env.offsetWidth / 2 -
      Real.sin (lat * Real.pi / 180) * (env.offsetWidth / 2 * 0.95) -
      env.scrollY - env.rectTop - (env.offsetWidth / 2 - env.scrollY)
      = -Real.sin (lat * Real.pi / 180) * (env.offsetWidth / 2 * 0.95) := by
    ring
  rw [he]
  refine abs_scaled_le _ _ ?_ (by linarith)
  rw [abs_neg]
  exact Real.abs_sin_le_one _

/-- C7: for every latitude in [-90, 90] (poles included), longitude in
[-180, 180] and any `phi`, both projections return x and y within
explicit finite bounds (at most one viewport radius from the
component's own center), so no NaN or infinity can arise. -/
theorem C7_projection_finite (lat lng phi w h : ℝ) (env : DomEnv)
    (h1 : -90 ≤ lat) (h2 : lat ≤ 90) (h3 : -180 ≤ lng) (h4 : lng ≤ 180)
    (hw : 0 < w) (hh : 0 < h) (henv : 0 < env.offsetWidth) :
    |(hpProject lat lng phi w h).x - w / 2| ≤ min w h / 2 ∧
    |(hpProject lat lng phi w h).y - h / 2| ≤ min w h / 2 ∧
    |(gwpProject env phi lat lng).x -
      (env.offsetLeft + env.offsetWidth / 2 - env.rectLeft -
        env.rectLeft)| ≤ env.offsetWidth / 2 ∧
    |(gwpProject env phi lat lng).y -
      (env.offsetWidth / 2 - env.scrollY)| ≤ env.offsetWidth / 2 := by
  have hmin : (0 : ℝ) ≤ min w h := le_min hw.le hh.le
  have hW : (0 : ℝ) ≤ env.offsetWidth := henv.le
  refine ⟨?_, ?_, ?_, ?_⟩
  · have := hp_x_dist lat lng phi w h hmin
    linarith
  · have := hp_y_dist lat lng phi w h hmin
    linarith
  · have := gwp_x_dist env phi lat lng hW
    linarith
  · have := gwp_y_dist env phi lat lng hW
    linarith

/-- C7 witness: the north pole at the wraparound longitude. -/
theorem C7_projection_finite_witness :
    ((-90 : ℝ) ≤ 90 ∧ (90 : ℝ) ≤ 90 ∧ (-180 : ℝ) ≤ 180 ∧
      (180 : ℝ) ≤ 180 ∧ (0 : ℝ) < 920 ∧ (0 : ℝ) < 920 ∧
      (0 : ℝ) < (DomEnv.mk 0 0 0 0 680).offsetWidth) ∧
    (|(hpProject 90 180 1 920 920).x - 920 / 2| ≤ min 920 920 / 2 ∧
     |(hpProject 90 180 1 920 920).y - 920 / 2| ≤ min 920 920 / 2 ∧
     |(gwpProject (DomEnv.mk 0 0 0 0 680) 1 90 180).x -
       ((DomEnv.mk 0 0 0 0 680).offsetLeft +
         (DomEnv.mk 0 0 0 0 680).offsetWidth / 2 -
         (DomEnv.mk 0 0 0 0 680).rectLeft -
         (DomEnv.mk 0 0 0 0 680).rectLeft)| ≤
       (DomEnv.mk 0 0 0 0 680).offsetWidth / 2 ∧
     |(gwpProject (DomEnv.mk 0 0 0 0 680) 1 90 180).y -
       ((DomEnv.mk 0 0 0 0 680).offsetWidth / 2 -
         (DomEnv.mk 0 0 0 0 680).scrollY)| ≤
       (DomEnv.mk 0 0 0 0 680).offsetWidth / 2) :=
  ⟨⟨by norm_num, by norm_num, by norm_num, by norm_num, by norm_num,
    by norm_num, by norm_num⟩,
   C7_projection_finite 90 180 1 920 920 (DomEnv.mk 0 0 0 0 680)
     (by norm_num) (by norm_num) (by norm_num) (by norm_num)
     (by norm_num) (by norm_num) (by norm_num)⟩

/-- C10: for latitudes in [-90, 90] and longitudes in [-180, 180] the
projected point stays within the 5%-inset square around the viewport
center: at most `0.95 * R` from the center in each axis.  For the
`GlobeWithPins` variant this holds with the wrapper at the page origin
and no scroll (otherwise the DOM offsets translate the center). -/
theorem C10_inset_bounds (lat lng phi w h : ℝ) (env : DomEnv)
    (h1 : -90 ≤ lat) (h2 : lat ≤ 90) (h3 : -180 ≤ lng) (h4 : lng ≤ 180)
    (hw : 0 < w) (hh : 0 < h) (henv : 0 < env.offsetWidth)
    (hoff : env.offsetLeft = 0) (hrect : env.rectLeft = 0)
    (hscroll : env.scrollY = 0) :
    |(hpProject lat lng phi w h).x - w / 2| ≤ 0.95 * (min w h / 2) ∧
    |(hpProject lat lng phi w h).y - h / 2| ≤ 0.95 * (min w h / 2) ∧
    |(gwpProject env phi lat lng).x - env.offsetWidth / 2| ≤
      0.95 * (env.offsetWidth / 2) ∧
    |(gwpProject env phi lat lng).y - env.offsetWidth / 2| ≤
      0.95 * (env.offsetWidth / 2) := by
  have hmin : (0 : ℝ) ≤ min w h := le_min hw.le hh.le
  have hW : (0 : ℝ) ≤ env.offsetWidth := henv.le
  refine ⟨hp_x_dist lat lng phi w h hmin, hp_y_dist lat lng phi w h hmin,
    ?_, ?_⟩
  · have := gwp_x_dist env phi lat lng hW
    rw [hoff, hrect] at this
    simpa using this
  · have := gwp_y_dist env phi lat lng hW
    rw [hscroll] at this
    simpa using this

/-- C10 witness: the bound at a concrete equatorial input. -/
theorem C10_inset_bounds_witness :
    ((-90 : ℝ) ≤ 36 ∧ (36 : ℝ) ≤ 90 ∧ (-180 : ℝ) ≤ 3 ∧ (3 : ℝ) ≤ 180 ∧
      (0 : ℝ) < 920 ∧ (0 : ℝ) < 920 ∧
      (0 : ℝ) < (DomEnv.mk 0 0 0 0 680).offsetWidth ∧
      (DomEnv.mk 0 0 0 0 680).offsetLeft = 0 ∧
      (DomEnv.mk 0 0 0 0 680).rectLeft = 0 ∧
      (DomEnv.mk 0 0 0 0 680).scrollY = 0) ∧
    (|(hpProject 36 3 0.5 920 920).x - 920 / 2| ≤
       0.95 * (min 920 920 / 2) ∧
     |(hpProject 36 3 0.5 920 920).y - 920 / 2| ≤
       0.95 * (min 920 920 / 2) ∧
     |(gwpProject (DomEnv.mk 0 0 0 0 680) 0.5 36 3).x -
       (DomEnv.mk 0 0 0 0 680).offsetWidth / 2| ≤
       0.95 * ((DomEnv.mk 0 0 0 0 680).offsetWidth / 2) ∧
     |(gwpProject (DomEnv.mk 0 0 0 0 680) 0.5 36 3).y -
       (DomEnv.mk 0 0 0 0 680).offsetWidth / 2| ≤
       0.95 * ((DomEnv.mk 0 0 0 0 680).offsetWidth / 2)) :=
  ⟨⟨by norm_num, by norm_num, by norm_num, by norm_num, by norm_num,
    by norm_num, by norm_num, rfl, rfl, rfl⟩,
   C10_inset_bounds 36 3 0.5 920 920 (DomEnv.mk 0 0 0 0 680)
     (by norm_num) (by norm_num) (by norm_num) (by norm_num)
     (by norm_num) (by norm_num) (by norm_num) rfl rfl rfl⟩

/-- C8: the claim's fallback is wrong for `HomepageAnimation` — with a
non-visible marker whose projected x is 100 in a 920-wide wrapper, the
card's left stays at the clamped 100, not the horizontal center 460. -/
theorem C8_counterexample :
    (hpCardAnchor 920 100 0 false).1 = 100 ∧
    (hpCardAnchor 920 100 0 false).1 ≠ 920 / 2 := by
  have h : (hpCardAnchor 920 100 0 false).1 = 100 := by
    show max 60 (min (920 - 60) 100) = 100
    rw [min_eq_right (by norm_num : (100 : ℝ) ≤ 920 - 60),
      max_eq_right (by norm_num : (60 : ℝ) ≤ 100)]
  refine ⟨h, ?_⟩
  rw [h]
  norm_num

/-- C8 (amended): both components clamp the card horizontally within
fixed margins and place it a fixed offset above the marker when the
marker is visible; on a non-visible marker `GlobeWithPins` falls back
to the top-center `(w / 2, 28)`, while `HomepageAnimation` falls back
only vertically (top 36) and keeps the clamped marker x. -/
theorem C8_amended_anchor (w x adjY y : ℝ) (hw : 120 ≤ w) :
    (∀ vis, 60 ≤ (hpCardAnchor w x adjY vis).1 ∧
      (hpCardAnchor w x adjY vis).1 ≤ w - 60) ∧
    (hpCardAnchor w x adjY true).2 = max 36 (adjY - 72) ∧
    (hpCardAnchor w x adjY false).2 = 36 ∧
    gwpCardAnchor w x y true =
      (max 48 (min (w - 48) x), max 24 (y - 110)) ∧
    gwpCardAnchor w x y false = (w / 2, 28) := by
  refine ⟨?_, rfl, rfl, rfl, rfl⟩
  intro vis
  constructor
  · exact le_max_left _ _
  · exact max_le (by linarith) (min_le_left _ _)

/-- C8 amended witness: the bounds at a concrete wide wrapper. -/
theorem C8_amended_anchor_witness :
    (120 : ℝ) ≤ 920 ∧
    ((∀ vis, 60 ≤ (hpCardAnchor 920 100 50 vis).1 ∧
       (hpCardAnchor 920 100 50 vis).1 ≤ 920 - 60) ∧
     (hpCardAnchor 920 100 50 true).2 = max 36 (50 - 72) ∧
     (hpCardAnchor 920 100 50 false).2 = 36 ∧
     gwpCardAnchor 920 100 200 true =
       (max 48 (min (920 - 48) 100), max 24 (200 - 110)) ∧
     gwpCardAnchor 920 100 200 false = (920 / 2, 28)) :=
  ⟨by norm_num, C8_amended_anchor 920 100 50 200 (by norm_num)⟩

/-- C9 witness: concrete not-ready configurations produce the sentinel. -/
theorem C9_notReady_sentinel_witness :
    (((none : Option ℝ) = none ∨ (some () : Option Unit) = none) ∧
     ((some 1 : Option ℝ) = none ∨ (none : Option DomEnv) = none)) ∧
    (hpLatLngToScreen none (some ()) 920 920 36 3 = sentinelProj ∧
     gwpLatLngToScreen (some 1) none 36 3 = sentinelProj) :=
  ⟨⟨Or.inl rfl, Or.inr rfl⟩,
   C9_notReady_sentinel none (some ()) (some 1) none 920 920 36 3 36 3
     (Or.inl rfl) (Or.inr rfl)⟩
